import Mathlib

/-!
Shallow embedding of `src/caltrain_status.rs` from the `caltraind`
repository: the HTML-status extraction core (`CaltrainStatus::from_html`),
its recursive tree walk `walk`, the record builder `make_incoming_train`,
the train-type classifier `TrainType::from`, and the `Error` type.

Rust `u16` values are modelled as `Nat` kept in range by the parser;
fallible operations return an explicit result type.  The Rust
`panic!` in `TrainType::from` (reached on an unknown type label) is
modelled as a distinct `panicked` outcome, separate from the typed
`Error` values a caller can receive.
-/

namespace Caltraind

/-- Embedding of the Rust enum `TrainType` (variants `Local`, `Limited`,
`BabyBullet`). -/
inductive TrainType where
  | Local
  | Limited
  | BabyBullet
deriving DecidableEq, Repr

/-- Substring search on character lists: does `pat` occur contiguously in
`s`? -/
def listContainsSub (pat : List Char) : List Char → Bool
  | [] => List.isPrefixOf pat []
  | c :: rest => List.isPrefixOf pat (c :: rest) || listContainsSub pat rest

/-- Embedding of Rust `haystack.contains(pat)` for a valid-UTF-8 haystack and
an ASCII pattern: byte-substring containment coincides with character-level
substring containment because ASCII bytes never occur inside a multi-byte
UTF-8 sequence. -/
def strContains (s pat : String) : Bool :=
  listContainsSub pat.data s.data

/-- Embedding of `impl From<T> for TrainType` (caltrain_status.rs:25-37):
ordered substring tests for "Local", then "Limited", then "Baby Bullet";
the `panic!` on the fall-through arm is modelled as `none`. -/
def TrainType.fromLabel (s : String) : Option TrainType :=
  if strContains s "Local" then
    some TrainType.Local
  else if strContains s "Limited" then
    some TrainType.Limited
  else if strContains s "Baby Bullet" then
    some TrainType.BabyBullet
  else
    none

/-- Embedding of the Rust struct `IncomingTrain`; the `u16` fields are
`Nat`s kept below 2^16 by `parseU16`. -/
structure IncomingTrain where
  id : Nat
  ttype : TrainType
  minTillDeparture : Nat
deriving DecidableEq, Repr

/-- Embedding of the Rust enum `Error` (caltrain_status.rs:239-243): a
document-level HTML/IO failure or an integer-parse failure.  The payloads
(`std::io::Error`, `std::num::ParseIntError`) carry no information the
extraction logic inspects, so they are dropped. -/
inductive Error where
  | htmlError
  | invalidIntError
deriving DecidableEq, Repr

/-- Outcome of running a piece of the extraction code: a normal value, a
returned `Error` (Rust `Result::Err`), or a process abort
(Rust `panic!`). -/
inductive RunResult (α : Type) where
  | ok (a : α)
  | err (e : Error)
  | panicked
deriving DecidableEq, Repr

/-- Embedding of Rust `str::parse::<u16>()`: an optional leading `+`, then a
nonempty run of ASCII digits whose value fits in 16 bits; anything else
(empty input, a stray sign, a non-digit, overflow) fails. -/
def parseU16 (s : String) : Option Nat :=
  let ds : List Char :=
    match s.data with
    | '+' :: rest => rest
    | cs => cs
  if ds = [] then none
  else if ds.all (fun c => c.isDigit) then
    let v := ds.foldl (fun acc c => acc * 10 + (c.toNat - 48)) 0
    if v ≤ 65535 then some v else none
  else none

/-- Embedding of `NUMERIC.find(..)` for the regex `[0-9]+`
(caltrain_status.rs:16): the leftmost maximal contiguous run of ASCII
digits, or `none` when the string has no digit. -/
def firstDigitRun (s : String) : Option String :=
  let cs := s.data.dropWhile (fun c => !c.isDigit)
  match cs with
  | [] => none
  | _ => some ⟨cs.takeWhile (fun c => c.isDigit)⟩

/-- Embedding of `make_incoming_train` (caltrain_status.rs:120-129): parse
the id as `u16`, classify the type label (panicking on no match), then take
the first digit run of the time label as `u16`, with sentinel 9001 when no
digit is present. -/
def makeIncomingTrain (tid ttype tta : String) : RunResult IncomingTrain :=
  match parseU16 tid with
  | none => RunResult.err Error.invalidIntError
  | some id =>
    match TrainType.fromLabel ttype with
    | none => RunResult.panicked
    | some ty =>
      match firstDigitRun tta with
      | some run =>
        match parseU16 run with
        | none => RunResult.err Error.invalidIntError
        | some m => RunResult.ok ⟨id, ty, m⟩
      | none => RunResult.ok ⟨id, ty, 9001⟩

/-- One attribute of a DOM element (name and value), as produced by the
external HTML parser. -/
structure Attr where
  name : String
  value : String
deriving DecidableEq, Repr

/-- The node payloads `walk` distinguishes (caltrain_status.rs:144-167):
elements (only their attributes matter), text nodes, and everything else. -/
inductive NodeData where
  | element (attrs : List Attr)
  | text (contents : String)
  | other
deriving DecidableEq, Repr

mutual
/-- A DOM node: payload plus ordered children, mirroring `rcdom::Handle`. -/
inductive Node where
  | mk (data : NodeData) (children : NodeList)

/-- An ordered list of DOM nodes (children of a node, in document order). -/
inductive NodeList where
  | nil
  | cons (head : Node) (tail : NodeList)
end

/-- Build a `NodeList` from an ordinary list of nodes. -/
def NodeList.ofList : List Node → NodeList
  | [] => NodeList.nil
  | n :: rest => NodeList.cons n (NodeList.ofList rest)

/-- Embedding of the local Rust enum `LastReadClass`
(caltrain_status.rs:105-110). -/
inductive LastReadClass where
  | TrainId
  | TrainType
  | TimeTillArrival
deriving DecidableEq, Repr

/-- The mutable state threaded by reference through `walk`
(caltrain_status.rs:97-114 and the `&mut` parameters of `walk`). -/
structure WalkState where
  lastReadClass : Option LastReadClass
  lastText : Option String
  trainId : Option String
  trainType : Option String
  timeTillArrival : Option String
  currentTableNo : Int
  southbound : List IncomingTrain
  northbound : List IncomingTrain
deriving DecidableEq, Repr

/-- Embedding of Rust `value.ends_with(bytes)` for an ASCII byte suffix on a
valid-UTF-8 value: byte-suffix and character-suffix tests coincide because
an ASCII byte is never a trailing byte of a multi-byte UTF-8 sequence. -/
def strEndsWith (s pat : String) : Bool :=
  List.isSuffixOf pat.data s.data

/-- Processing of a single attribute in the element arm of `walk`
(caltrain_status.rs:146-161): on a `class` attribute, apply each of the
four independent suffix checks in order. -/
def processAttr (s : WalkState) (a : Attr) : WalkState :=
  if a.name = "class" then
    let s1 :=
      if strEndsWith a.value "ipf-st-ip-trains-subtable" then
        { s with currentTableNo := s.currentTableNo + 1 }
      else s
    let s2 :=
      if strEndsWith a.value "ipf-st-ip-trains-subtable-td-id" then
        { s1 with lastReadClass := some LastReadClass.TrainId }
      else s1
    let s3 :=
      if strEndsWith a.value "ipf-st-ip-trains-subtable-td-type" then
        { s2 with lastReadClass := some LastReadClass.TrainType }
      else s2
    if strEndsWith a.value "ipf-st-ip-trains-subtable-td-arrivaltime" then
      { s3 with lastReadClass := some LastReadClass.TimeTillArrival }
    else s3
  else s

/-- The pre-order step of `walk` (caltrain_status.rs:144-168): classify an
element from its attributes, or record a text node's contents in
`last_text`. -/
def preStep (d : NodeData) (s : WalkState) : WalkState :=
  match d with
  | NodeData.element attrs => attrs.foldl processAttr s
  | NodeData.text contents => { s with lastText := some contents }
  | NodeData.other => s

/-- The post-order text-commit step of `walk` (caltrain_status.rs:182-194):
when both `last_read_class` and `last_text` are set, move the text into the
staging slot named by the class and clear both; otherwise leave both as
they are. -/
def commitText (s : WalkState) : WalkState :=
  match s.lastReadClass, s.lastText with
  | some c, some text =>
    match c with
    | LastReadClass.TrainId =>
      { s with trainId := some text, lastReadClass := none, lastText := none }
    | LastReadClass.TrainType =>
      { s with trainType := some text, lastReadClass := none, lastText := none }
    | LastReadClass.TimeTillArrival =>
      { s with timeTillArrival := some text,
               lastReadClass := none, lastText := none }
  | _, _ => s

/-- The row-completion step of `walk` (caltrain_status.rs:195-212): when all
three staging slots are populated, build and route the record by the current
table number (1 → southbound, 2 → northbound, otherwise drop), then wipe the
three slots. -/
def commitRow (s : WalkState) : RunResult WalkState :=
  match s.trainId, s.trainType, s.timeTillArrival with
  | some tid, some ty, some tta =>
    let step1 : RunResult WalkState :=
      if s.currentTableNo = 1 then
        match makeIncomingTrain tid ty tta with
        | RunResult.ok t =>
          RunResult.ok { s with southbound := s.southbound ++ [t] }
        | RunResult.err e => RunResult.err e
        | RunResult.panicked => RunResult.panicked
      else RunResult.ok s
    match step1 with
    | RunResult.ok s1 =>
      let step2 : RunResult WalkState :=
        if s1.currentTableNo = 2 then
          match makeIncomingTrain tid ty tta with
          | RunResult.ok t =>
            RunResult.ok { s1 with northbound := s1.northbound ++ [t] }
          | RunResult.err e => RunResult.err e
          | RunResult.panicked => RunResult.panicked
        else RunResult.ok s1
      match step2 with
      | RunResult.ok s2 =>
        RunResult.ok { s2 with trainId := none, trainType := none,
                               timeTillArrival := none }
      | RunResult.err e => RunResult.err e
      | RunResult.panicked => RunResult.panicked
    | RunResult.err e => RunResult.err e
    | RunResult.panicked => RunResult.panicked
  | _, _, _ => RunResult.ok s

mutual
/-- Embedding of the recursive `walk` (caltrain_status.rs:131-214):
pre-order classification, recursion into children, post-order text commit
and row commit, with `?`-style propagation of failures. -/
def walk (n : Node) (s : WalkState) : RunResult WalkState :=
  match n with
  | Node.mk d children =>
    match walkChildren children (preStep d s) with
    | RunResult.ok s2 => commitRow (commitText s2)
    | RunResult.err e => RunResult.err e
    | RunResult.panicked => RunResult.panicked

/-- The `for child in node.children` loop of `walk`
(caltrain_status.rs:169-181): walk each child in document order, stopping
at the first failure. -/
def walkChildren (l : NodeList) (s : WalkState) : RunResult WalkState :=
  match l with
  | NodeList.nil => RunResult.ok s
  | NodeList.cons n rest =>
    match walk n s with
    | RunResult.ok s1 => walkChildren rest s1
    | RunResult.err e => RunResult.err e
    | RunResult.panicked => RunResult.panicked
end

/-- Embedding of the Rust struct `CaltrainStatus`. -/
structure CaltrainStatus where
  northbound : List IncomingTrain
  southbound : List IncomingTrain
deriving DecidableEq, Repr

/-- Embedding of `CaltrainStatus::get_status` (caltrain_status.rs:92-94). -/
def CaltrainStatus.getStatus (st : CaltrainStatus) :
    List IncomingTrain × List IncomingTrain :=
  (st.northbound, st.southbound)

/-- The initial values of the mutable locals of `from_html`
(caltrain_status.rs:97-114). -/
def initState : WalkState :=
  { lastReadClass := none, lastText := none, trainId := none,
    trainType := none, timeTillArrival := none, currentTableNo := 0,
    southbound := [], northbound := [] }

/-- Embedding of `CaltrainStatus::from_html` (caltrain_status.rs:96-232)
applied to an already-parsed document tree: run `walk` from the initial
state and package the two accumulated sequences.  Reading or parsing the
byte stream is done by the external HTML parser; an unreadable stream is
the `Error.htmlError` case and never reaches `walk`. -/
def fromHtml (doc : Node) : RunResult CaltrainStatus :=
  match walk doc initState with
  | RunResult.ok s =>
    RunResult.ok { northbound := s.northbound, southbound := s.southbound }
  | RunResult.err e => RunResult.err e
  | RunResult.panicked => RunResult.panicked

/-! ### Concrete documents used to exercise the definitions -/

/-- A table cell carrying one marker class and a single text child. -/
def rowEl (cls txt : String) : Node :=
  Node.mk (NodeData.element [⟨"class", cls⟩])
    (NodeList.cons (Node.mk (NodeData.text txt) NodeList.nil) NodeList.nil)

/-- A subtable-boundary marker element with no children. -/
def subtableMarker : Node :=
  Node.mk (NodeData.element [⟨"class", "ipf-st-ip-trains-subtable"⟩])
    NodeList.nil

/-- A root node wrapping a list of children. -/
def docOf (l : List Node) : Node :=
  Node.mk NodeData.other (NodeList.ofList l)

/-! ### Case lemmas for the commit steps -/

/-- `commitRow` on a state missing a staged slot is a no-op. -/
theorem commitRow_not_staged (s : WalkState)
    (h : s.trainId = none ∨ s.trainType = none ∨ s.timeTillArrival = none) :
    commitRow s = RunResult.ok s := by
  rcases hi : s.trainId with _ | tid <;>
    rcases ht : s.trainType with _ | ty <;>
      rcases ha : s.timeTillArrival with _ | tta <;>
        simp [commitRow, hi, ht, ha] at h ⊢

/-- `commitRow` on a fully staged row outside tables 1 and 2 wipes the
slots and builds nothing. -/
theorem commitRow_staged_other (s : WalkState) (tid ty tta : String)
    (hi : s.trainId = some tid) (ht : s.trainType = some ty)
    (ha : s.timeTillArrival = some tta)
    (h1 : s.currentTableNo ≠ 1) (h2 : s.currentTableNo ≠ 2) :
    commitRow s = RunResult.ok
      { s with trainId := none, trainType := none, timeTillArrival := none } := by
  simp [commitRow, hi, ht, ha, h1, h2]

/-- `commitRow` on a fully staged row in table 1 runs the builder and, on
success, appends to `southbound` and wipes the slots. -/
theorem commitRow_staged_t1 (s : WalkState) (tid ty tta : String)
    (hi : s.trainId = some tid) (ht : s.trainType = some ty)
    (ha : s.timeTillArrival = some tta) (h1 : s.currentTableNo = 1) :
    commitRow s =
      match makeIncomingTrain tid ty tta with
      | RunResult.ok t =>
        RunResult.ok { s with southbound := s.southbound ++ [t],
                              trainId := none, trainType := none,
                              timeTillArrival := none }
      | RunResult.err e => RunResult.err e
      | RunResult.panicked => RunResult.panicked := by
  cases hmk : makeIncomingTrain tid ty tta <;>
    simp [commitRow, hi, ht, ha, h1, hmk]

/-- `commitRow` on a fully staged row in table 2 runs the builder and, on
success, appends to `northbound` and wipes the slots. -/
theorem commitRow_staged_t2 (s : WalkState) (tid ty tta : String)
    (hi : s.trainId = some tid) (ht : s.trainType = some ty)
    (ha : s.timeTillArrival = some tta) (h2 : s.currentTableNo = 2) :
    commitRow s =
      match makeIncomingTrain tid ty tta with
      | RunResult.ok t =>
        RunResult.ok { s with northbound := s.northbound ++ [t],
                              trainId := none, trainType := none,
                              timeTillArrival := none }
      | RunResult.err e => RunResult.err e
      | RunResult.panicked => RunResult.panicked := by
  cases hmk : makeIncomingTrain tid ty tta <;>
    simp [commitRow, hi, ht, ha, h2, hmk]

/-! ### Counting subtable-boundary markers -/

/-- 1 when an attribute is a `class` attribute whose value ends with the
subtable-boundary marker suffix, else 0. -/
def attrMarker (a : Attr) : Nat :=
  if a.name = "class" ∧ strEndsWith a.value "ipf-st-ip-trains-subtable" = true
  then 1 else 0

/-- Number of subtable-boundary markers carried by one node payload. -/
def dataMarkers : NodeData → Nat
  | NodeData.element attrs => (attrs.map attrMarker).sum
  | NodeData.text _ => 0
  | NodeData.other => 0

mutual
/-- Number of subtable-boundary markers in a whole subtree. -/
def nodeMarkers : Node → Nat
  | Node.mk d cs => dataMarkers d + listMarkers cs

/-- Number of subtable-boundary markers in a list of subtrees. -/
def listMarkers : NodeList → Nat
  | NodeList.nil => 0
  | NodeList.cons n rest => nodeMarkers n + listMarkers rest
end

/-- Processing one attribute adds that attribute's marker count to the
table number. -/
theorem processAttr_tableNo (s : WalkState) (a : Attr) :
    (processAttr s a).currentTableNo = s.currentTableNo + attrMarker a := by
  unfold processAttr attrMarker
  by_cases h1 : a.name = "class" <;> simp [h1] <;>
    by_cases h2 : strEndsWith a.value "ipf-st-ip-trains-subtable" = true <;>
      simp [h2] <;> split <;> split <;> split <;> rfl

/-- Folding `processAttr` over an attribute list adds the attribute
markers to the table number. -/
theorem foldl_processAttr_tableNo (attrs : List Attr) :
    ∀ s : WalkState, (attrs.foldl processAttr s).currentTableNo =
      s.currentTableNo + ((attrs.map attrMarker).sum : Int) := by
  induction attrs with
  | nil => intro s; simp
  | cons a rest ih =>
    intro s
    simp only [List.foldl_cons, List.map_cons, List.sum_cons]
    rw [ih (processAttr s a), processAttr_tableNo]
    push_cast
    ring

/-- The pre-order step adds the payload's marker count to the table
number. -/
theorem preStep_tableNo (d : NodeData) (s : WalkState) :
    (preStep d s).currentTableNo = s.currentTableNo + (dataMarkers d : Int) := by
  cases d with
  | element attrs => simpa [preStep, dataMarkers] using foldl_processAttr_tableNo attrs s
  | text contents => simp [preStep, dataMarkers]
  | other => simp [preStep, dataMarkers]

/-- The text-commit step never touches the table number. -/
theorem commitText_tableNo (s : WalkState) :
    (commitText s).currentTableNo = s.currentTableNo := by
  rcases hc : s.lastReadClass with _ | c <;>
    rcases ht : s.lastText with _ | t <;>
      simp [commitText, hc, ht] <;>
        cases c <;> rfl

/-- The row-commit step never touches the table number. -/
theorem commitRow_tableNo (s s' : WalkState)
    (h : commitRow s = RunResult.ok s') :
    s'.currentTableNo = s.currentTableNo := by
  rcases hi : s.trainId with _ | tid <;>
    rcases ht : s.trainType with _ | ty <;>
      rcases ha : s.timeTillArrival with _ | tta
  case some.some.some =>
    by_cases h1 : s.currentTableNo = 1
    · rw [commitRow_staged_t1 s tid ty tta hi ht ha h1] at h
      cases hmk : makeIncomingTrain tid ty tta <;> rw [hmk] at h <;>
        cases h <;> rfl
    · by_cases h2 : s.currentTableNo = 2
      · rw [commitRow_staged_t2 s tid ty tta hi ht ha h2] at h
        cases hmk : makeIncomingTrain tid ty tta <;> rw [hmk] at h <;>
          cases h <;> rfl
      · rw [commitRow_staged_other s tid ty tta hi ht ha h1 h2] at h
        cases h; rfl
  all_goals
    rw [commitRow_not_staged s (by simp [hi, ht, ha])] at h
  all_goals (cases h; rfl)

mutual
/-- A successful walk of one subtree increases the table number by exactly
the subtree's marker count. -/
theorem walk_tableNo (n : Node) (s s' : WalkState)
    (h : walk n s = RunResult.ok s') :
    s'.currentTableNo = s.currentTableNo + (nodeMarkers n : Int) := by
  cases n with
  | mk d cs =>
    rw [walk] at h
    cases hc : walkChildren cs (preStep d s) with
    | ok s2 =>
      rw [hc] at h
      have h1 := walkChildren_tableNo cs (preStep d s) s2 hc
      have h2 := commitRow_tableNo (commitText s2) s' h
      have h3 := commitText_tableNo s2
      have h4 := preStep_tableNo d s
      have h5 : nodeMarkers (Node.mk d cs) = dataMarkers d + listMarkers cs := rfl
      rw [h5]
      push_cast
      omega
    | err e => rw [hc] at h; cases h
    | panicked => rw [hc] at h; cases h

/-- A successful walk of a child list increases the table number by
exactly the list's marker count. -/
theorem walkChildren_tableNo (l : NodeList) (s s' : WalkState)
    (h : walkChildren l s = RunResult.ok s') :
    s'.currentTableNo = s.currentTableNo + (listMarkers l : Int) := by
  cases l with
  | nil => rw [walkChildren] at h; cases h; simp [listMarkers]
  | cons n rest =>
    rw [walkChildren] at h
    cases hw : walk n s with
    | ok s1 =>
      rw [hw] at h
      have h1 := walk_tableNo n s s1 hw
      have h2 := walkChildren_tableNo rest s1 s' h
      have h3 : listMarkers (NodeList.cons n rest) =
          nodeMarkers n + listMarkers rest := rfl
      rw [h3]
      push_cast
      omega
    | err e => rw [hw] at h; cases h
    | panicked => rw [hw] at h; cases h
end

/-! ### Claim theorems -/

/-- Claim C1: at a commit point with all three staging slots populated, a
row built while the table index equals 1 is appended to the southbound
sequence, one built while the index equals 2 is appended to the northbound
sequence, and under any other index the row is dropped silently; appending
at the tail keeps each direction in row-completion (document) order. -/
theorem commitRow_routes_by_table_index (s : WalkState) (tid ty tta : String)
    (hi : s.trainId = some tid) (ht : s.trainType = some ty)
    (ha : s.timeTillArrival = some tta) :
    (∀ t, s.currentTableNo = 1 → makeIncomingTrain tid ty tta = RunResult.ok t →
      commitRow s = RunResult.ok
        { s with southbound := s.southbound ++ [t], trainId := none,
                 trainType := none, timeTillArrival := none }) ∧
    (∀ t, s.currentTableNo = 2 → makeIncomingTrain tid ty tta = RunResult.ok t →
      commitRow s = RunResult.ok
        { s with northbound := s.northbound ++ [t], trainId := none,
                 trainType := none, timeTillArrival := none }) ∧
    (s.currentTableNo ≠ 1 → s.currentTableNo ≠ 2 →
      commitRow s = RunResult.ok
        { s with trainId := none, trainType := none,
                 timeTillArrival := none }) := by
  refine ⟨?_, ?_, ?_⟩
  · intro t h1 hmk
    rw [commitRow_staged_t1 s tid ty tta hi ht ha h1, hmk]
  · intro t h2 hmk
    rw [commitRow_staged_t2 s tid ty tta hi ht ha h2, hmk]
  · intro h1 h2
    exact commitRow_staged_other s tid ty tta hi ht ha h1 h2

/-- Witness for C1: a concrete fully staged state in table 1 commits its
row to the southbound tail. -/
theorem commitRow_routes_by_table_index_witness :
    commitRow
      { lastReadClass := none, lastText := none, trainId := some "802",
        trainType := some "Baby Bullet", timeTillArrival := some "6 min.",
        currentTableNo := 1, southbound := [], northbound := [] } =
    RunResult.ok
      { lastReadClass := none, lastText := none, trainId := none,
        trainType := none, timeTillArrival := none, currentTableNo := 1,
        southbound := [⟨802, TrainType.BabyBullet, 6⟩], northbound := [] } :=
  (commitRow_routes_by_table_index _ "802" "Baby Bullet" "6 min."
    rfl rfl rfl).1 ⟨802, TrainType.BabyBullet, 6⟩ rfl (by decide)

/-- A document whose single row completes while the table index is still 0
and carries a non-numeric identifier. -/
def docUnroutedRow : Node :=
  docOf
    [ rowEl "ipf-st-ip-trains-subtable-td-id" "abc"
    , rowEl "ipf-st-ip-trains-subtable-td-type" "Local"
    , rowEl "ipf-st-ip-trains-subtable-td-arrivaltime" "5"
    ]

/-- Counterexample to C2 as stated: at a commit point where all three
staging slots are populated but the table index is 0, the Record Builder is
never invoked, so extraction succeeds even though building these staged
texts would fail; a builder failure therefore does not abort regardless of
the table index. -/
theorem commitRow_skips_builder_when_unrouted_cx :
    makeIncomingTrain "abc" "Local" "5" = RunResult.err Error.invalidIntError ∧
    fromHtml docUnroutedRow =
      RunResult.ok { northbound := [], southbound := [] } := by
  constructor
  · decide
  · decide

/-- Claim C2 (amended): at a commit point with all three staging slots
populated, the Record Builder is invoked only when the table index is 1 or
2 — a builder failure then aborts the attempt — while under any other index
the row is dropped with no builder call; in every non-aborting case the
three staging slots end up cleared. -/
theorem commitRow_builder_only_when_routed (s : WalkState)
    (tid ty tta : String)
    (hi : s.trainId = some tid) (ht : s.trainType = some ty)
    (ha : s.timeTillArrival = some tta) :
    (s.currentTableNo ≠ 1 → s.currentTableNo ≠ 2 →
      commitRow s = RunResult.ok
        { s with trainId := none, trainType := none,
                 timeTillArrival := none }) ∧
    (∀ e, (s.currentTableNo = 1 ∨ s.currentTableNo = 2) →
      makeIncomingTrain tid ty tta = RunResult.err e →
      commitRow s = RunResult.err e) ∧
    ((s.currentTableNo = 1 ∨ s.currentTableNo = 2) →
      makeIncomingTrain tid ty tta = RunResult.panicked →
      commitRow s = RunResult.panicked) ∧
    (∀ s', commitRow s = RunResult.ok s' →
      s'.trainId = none ∧ s'.trainType = none ∧
        s'.timeTillArrival = none) := by
  refine ⟨?_, ?_, ?_, ?_⟩
  · intro h1 h2
    exact commitRow_staged_other s tid ty tta hi ht ha h1 h2
  · rintro e (h1 | h2) hmk
    · rw [commitRow_staged_t1 s tid ty tta hi ht ha h1, hmk]
    · rw [commitRow_staged_t2 s tid ty tta hi ht ha h2, hmk]
  · rintro (h1 | h2) hmk
    · rw [commitRow_staged_t1 s tid ty tta hi ht ha h1, hmk]
    · rw [commitRow_staged_t2 s tid ty tta hi ht ha h2, hmk]
  · intro s' hok
    by_cases h1 : s.currentTableNo = 1
    · rw [commitRow_staged_t1 s tid ty tta hi ht ha h1] at hok
      cases hmk : makeIncomingTrain tid ty tta <;> rw [hmk] at hok <;>
        cases hok
      exact ⟨rfl, rfl, rfl⟩
    · by_cases h2 : s.currentTableNo = 2
      · rw [commitRow_staged_t2 s tid ty tta hi ht ha h2] at hok
        cases hmk : makeIncomingTrain tid ty tta <;> rw [hmk] at hok <;>
          cases hok
        exact ⟨rfl, rfl, rfl⟩
      · rw [commitRow_staged_other s tid ty tta hi ht ha h1 h2] at hok
        cases hok
        exact ⟨rfl, rfl, rfl⟩

/-- Witness for the amended C2: a staged state at table index 0 with an
unparseable identifier commits without aborting, and the same staged texts
abort when the index is 1. -/
theorem commitRow_builder_only_when_routed_witness :
    commitRow
      { lastReadClass := none, lastText := none, trainId := some "abc",
        trainType := some "Local", timeTillArrival := some "5",
        currentTableNo := 0, southbound := [], northbound := [] } =
    RunResult.ok
      { lastReadClass := none, lastText := none, trainId := none,
        trainType := none, timeTillArrival := none, currentTableNo := 0,
        southbound := [], northbound := [] } ∧
    commitRow
      { lastReadClass := none, lastText := none, trainId := some "abc",
        trainType := some "Local", timeTillArrival := some "5",
        currentTableNo := 1, southbound := [], northbound := [] } =
    RunResult.err Error.invalidIntError :=
  ⟨(commitRow_builder_only_when_routed _ "abc" "Local" "5"
      rfl rfl rfl).1 (by decide) (by decide),
   (commitRow_builder_only_when_routed _ "abc" "Local" "5"
      rfl rfl rfl).2.1 Error.invalidIntError (Or.inl rfl) (by decide)⟩

/-- Claim C3: the train type is derived from the raw label by ordered
substring containment — "Local" first, then "Limited", then "Baby Bullet" —
with the first match winning, and a label containing none of the three
fails classification rather than defaulting. -/
theorem fromLabel_ordered_containment (s : String) :
    (strContains s "Local" = true →
      TrainType.fromLabel s = some TrainType.Local) ∧
    (strContains s "Local" = false → strContains s "Limited" = true →
      TrainType.fromLabel s = some TrainType.Limited) ∧
    (strContains s "Local" = false → strContains s "Limited" = false →
      strContains s "Baby Bullet" = true →
      TrainType.fromLabel s = some TrainType.BabyBullet) ∧
    (strContains s "Local" = false → strContains s "Limited" = false →
      strContains s "Baby Bullet" = false →
      TrainType.fromLabel s = none) := by
  refine ⟨?_, ?_, ?_, ?_⟩
  · intro h1
    simp [TrainType.fromLabel, h1]
  · intro h1 h2
    simp [TrainType.fromLabel, h1, h2]
  · intro h1 h2 h3
    simp [TrainType.fromLabel, h1, h2, h3]
  · intro h1 h2 h3
    simp [TrainType.fromLabel, h1, h2, h3]

/-- Witness for C3: a label containing both "Local" and "Limited" is
classified Local (first match wins), and a label containing none of the
three strings fails classification. -/
theorem fromLabel_ordered_containment_witness :
    TrainType.fromLabel "Limited Local" = some TrainType.Local ∧
    TrainType.fromLabel "Commuter Express" = none :=
  ⟨(fromLabel_ordered_containment "Limited Local").1 (by decide),
   (fromLabel_ordered_containment "Commuter Express").2.2.2
     (by decide) (by decide) (by decide)⟩

/-- Claim C4: for a committed row, `minTillDeparture` comes from the first
maximal contiguous ASCII-digit run of the time text parsed as a `u16`, and
a time text with no ASCII digit yields exactly the sentinel 9001 as a
successful result. -/
theorem makeIncomingTrain_time_rule (tid ty tta : String) (i : Nat)
    (tt : TrainType) (hid : parseU16 tid = some i)
    (hty : TrainType.fromLabel ty = some tt) :
    ((∀ c ∈ tta.data, c.isDigit = false) ↔ firstDigitRun tta = none) ∧
    (firstDigitRun tta = none →
      makeIncomingTrain tid ty tta = RunResult.ok ⟨i, tt, 9001⟩) ∧
    (∀ run m, firstDigitRun tta = some run → parseU16 run = some m →
      makeIncomingTrain tid ty tta = RunResult.ok ⟨i, tt, m⟩) := by
  refine ⟨?_, ?_, ?_⟩
  · constructor
    · intro h
      have hnil : tta.data.dropWhile (fun c => !c.isDigit) = [] := by
        rw [List.dropWhile_eq_nil_iff]
        intro c hc
        simp [h c hc]
      simp [firstDigitRun, hnil]
    · intro h
      cases hcs : tta.data.dropWhile (fun c => !c.isDigit) with
      | nil =>
        intro c hc
        have := (List.dropWhile_eq_nil_iff).mp hcs c hc
        simpa using this
      | cons c rest => simp [firstDigitRun, hcs] at h
  · intro h
    simp [makeIncomingTrain, hid, hty, h]
  · intro run m hrun hm
    simp [makeIncomingTrain, hid, hty, hrun, hm]

/-- Witness for C4: a digit-free time label yields the 9001 sentinel, and a
label with an embedded digit run yields that run's value. -/
theorem makeIncomingTrain_time_rule_witness :
    makeIncomingTrain "428" "Local" "Departed" =
      RunResult.ok ⟨428, TrainType.Local, 9001⟩ ∧
    makeIncomingTrain "428" "Local" "63 min." =
      RunResult.ok ⟨428, TrainType.Local, 63⟩ :=
  ⟨(makeIncomingTrain_time_rule "428" "Local" "Departed" 428 TrainType.Local
      (by decide) (by decide)).2.1 (by decide),
   (makeIncomingTrain_time_rule "428" "Local" "63 min." 428 TrainType.Local
      (by decide) (by decide)).2.2 "63" 63 (by decide) (by decide)⟩

/-- A document with one subtable marker followed by a row whose identifier
overflows `u16`, then a well-formed row. -/
def docOverflowRow : Node :=
  docOf
    [ subtableMarker
    , rowEl "ipf-st-ip-trains-subtable-td-id" "70000"
    , rowEl "ipf-st-ip-trains-subtable-td-type" "Local"
    , rowEl "ipf-st-ip-trains-subtable-td-arrivaltime" "5"
    , rowEl "ipf-st-ip-trains-subtable-td-id" "428"
    , rowEl "ipf-st-ip-trains-subtable-td-type" "Local"
    , rowEl "ipf-st-ip-trains-subtable-td-arrivaltime" "5"
    ]

/-- Claim C5: a builder failure on a routed row is fatal to the whole
extraction attempt — the failure propagates out of the row commit, out of
every enclosing child list and ancestor node, and out of `fromHtml`, whose
error result carries no partial snapshot. -/
theorem extraction_failure_is_fatal :
    (∀ (s : WalkState) (tid ty tta : String) (e : Error),
      s.trainId = some tid → s.trainType = some ty →
      s.timeTillArrival = some tta →
      (s.currentTableNo = 1 ∨ s.currentTableNo = 2) →
      makeIncomingTrain tid ty tta = RunResult.err e →
      commitRow s = RunResult.err e) ∧
    (∀ (d : NodeData) (cs : NodeList) (s : WalkState) (e : Error),
      walkChildren cs (preStep d s) = RunResult.err e →
      walk (Node.mk d cs) s = RunResult.err e) ∧
    (∀ (n : Node) (rest : NodeList) (s : WalkState) (e : Error),
      walk n s = RunResult.err e →
      walkChildren (NodeList.cons n rest) s = RunResult.err e) ∧
    (∀ (doc : Node) (e : Error),
      walk doc initState = RunResult.err e →
      fromHtml doc = RunResult.err e) := by
  refine ⟨?_, ?_, ?_, ?_⟩
  · rintro s tid ty tta e hi ht ha (h1 | h2) hmk
    · rw [commitRow_staged_t1 s tid ty tta hi ht ha h1, hmk]
    · rw [commitRow_staged_t2 s tid ty tta hi ht ha h2, hmk]
  · intro d cs s e h
    rw [walk, h]
  · intro n rest s e h
    rw [walkChildren, h]
  · intro doc e h
    rw [fromHtml, h]

/-- Witness for C5: the overflowing identifier in `docOverflowRow` makes
the whole extraction return the integer-parse error, with no partial
snapshot from the earlier marker. -/
theorem extraction_failure_is_fatal_witness :
    fromHtml docOverflowRow = RunResult.err Error.invalidIntError :=
  extraction_failure_is_fatal.2.2.2 docOverflowRow Error.invalidIntError
    (by decide)

/-- Claim C6: the commit step moves the last-seen text into the staging
slot named by the pending field classification and clears both exactly when
both are set; when either is unset the whole state, in particular both of
them, is left unchanged. -/
theorem commitText_stages_pending_field (s : WalkState) :
    (∀ text, s.lastReadClass = some LastReadClass.TrainId →
      s.lastText = some text →
      commitText s = { s with trainId := some text, lastReadClass := none,
                              lastText := none }) ∧
    (∀ text, s.lastReadClass = some LastReadClass.TrainType →
      s.lastText = some text →
      commitText s = { s with trainType := some text, lastReadClass := none,
                              lastText := none }) ∧
    (∀ text, s.lastReadClass = some LastReadClass.TimeTillArrival →
      s.lastText = some text →
      commitText s = { s with timeTillArrival := some text,
                              lastReadClass := none, lastText := none }) ∧
    (s.lastReadClass = none → commitText s = s) ∧
    (s.lastText = none → commitText s = s) := by
  refine ⟨?_, ?_, ?_, ?_, ?_⟩
  · intro text hc ht
    simp [commitText, hc, ht]
  · intro text hc ht
    simp [commitText, hc, ht]
  · intro text hc ht
    simp [commitText, hc, ht]
  · intro hc
    rcases ht : s.lastText with _ | t <;> simp [commitText, hc, ht]
  · intro ht
    rcases hc : s.lastReadClass with _ | c <;> simp [commitText, hc, ht]

/-- Witness for C6: a concrete state with a pending identifier
classification and a seen text stages that text into the id slot. -/
theorem commitText_stages_pending_field_witness :
    commitText
      { lastReadClass := some LastReadClass.TrainId,
        lastText := some "802", trainId := none, trainType := none,
        timeTillArrival := none, currentTableNo := 1, southbound := [],
        northbound := [] } =
    { lastReadClass := none, lastText := none, trainId := some "802",
      trainType := none, timeTillArrival := none, currentTableNo := 1,
      southbound := [], northbound := [] } :=
  (commitText_stages_pending_field _).1 "802" rfl rfl

/-- Claim C7: the table index starts at 0, a visited element with a class
value ending in the subtable-boundary suffix adds exactly 1, an element
whose class value does not end in it adds nothing, and a successful walk
changes the index by exactly the subtree's marker count — never decreasing
it, with no subtree-scoped restore. -/
theorem tableIndex_starts_zero_and_monotone :
    initState.currentTableNo = 0 ∧
    (∀ (name value : String) (s : WalkState),
      name = "class" →
      strEndsWith value "ipf-st-ip-trains-subtable" = true →
      (preStep (NodeData.element [⟨name, value⟩]) s).currentTableNo =
        s.currentTableNo + 1) ∧
    (∀ (name value : String) (s : WalkState),
      ¬(name = "class" ∧
          strEndsWith value "ipf-st-ip-trains-subtable" = true) →
      (preStep (NodeData.element [⟨name, value⟩]) s).currentTableNo =
        s.currentTableNo) ∧
    (∀ (n : Node) (s s' : WalkState), walk n s = RunResult.ok s' →
      s'.currentTableNo = s.currentTableNo + (nodeMarkers n : Int) ∧
      s.currentTableNo ≤ s'.currentTableNo) := by
  refine ⟨rfl, ?_, ?_, ?_⟩
  · intro name value s h1 h2
    have hm : attrMarker ⟨name, value⟩ = 1 := by
      simp [attrMarker, h1, h2]
    have := processAttr_tableNo s ⟨name, value⟩
    rw [hm] at this
    simpa [preStep] using this
  · intro name value s h
    have hm : attrMarker ⟨name, value⟩ = 0 := by
      simp only [attrMarker, if_neg h]
    have := processAttr_tableNo s ⟨name, value⟩
    rw [hm] at this
    simpa [preStep] using this
  · intro n s s' h
    have heq := walk_tableNo n s s' h
    constructor
    · exact heq
    · omega

/-- Witness for C7: a marker element bumps the index of the initial state
from 0 to 1, a field-marker element leaves it unchanged, and walking a
lone marker node raises the index by its marker count of 1. -/
theorem tableIndex_starts_zero_and_monotone_witness :
    (preStep (NodeData.element
        [⟨"class", "foo ipf-st-ip-trains-subtable"⟩])
      initState).currentTableNo = initState.currentTableNo + 1 ∧
    (preStep (NodeData.element
        [⟨"class", "ipf-st-ip-trains-subtable-td-id"⟩])
      initState).currentTableNo = initState.currentTableNo ∧
    (({ initState with currentTableNo := 1 } : WalkState).currentTableNo =
        initState.currentTableNo + (nodeMarkers subtableMarker : Int) ∧
      initState.currentTableNo ≤
        ({ initState with currentTableNo := 1 } : WalkState).currentTableNo) :=
  ⟨tableIndex_starts_zero_and_monotone.2.1 "class"
      "foo ipf-st-ip-trains-subtable" initState rfl (by decide),
   tableIndex_starts_zero_and_monotone.2.2.1 "class"
      "ipf-st-ip-trains-subtable-td-id" initState (by decide),
   tableIndex_starts_zero_and_monotone.2.2.2 subtableMarker initState
      { initState with currentTableNo := 1 } (by decide)⟩

/-- Claim C8: extraction is deterministic — the same document tree always
yields the same snapshot or the same failure.  The embedding of the core is
a pure function of the parsed document, so equal inputs give equal
results. -/
theorem fromHtml_deterministic (d1 d2 : Node) (h : d1 = d2) :
    fromHtml d1 = fromHtml d2 := by
  rw [h]

/-- Witness for C8: running the extraction twice on one concrete document
gives equal results. -/
theorem fromHtml_deterministic_witness :
    fromHtml docUnroutedRow = fromHtml docUnroutedRow :=
  fromHtml_deterministic docUnroutedRow docUnroutedRow rfl

/-- Claim C9: `get_status` returns the stored sequences unmodified, with
the northbound sequence first and the southbound sequence second. -/
theorem getStatus_returns_north_then_south (st : CaltrainStatus) :
    st.getStatus = (st.northbound, st.southbound) := rfl

/-- Claim C10: the `Error` type a caller can receive has exactly the
document-level HTML kind and the integer-parse kind, and a
type-classification failure surfaces as the process abort, never as a
returnable `Error` value. -/
theorem error_type_two_kinds :
    (∀ e : Error, e = Error.htmlError ∨ e = Error.invalidIntError) ∧
    (∀ (tid ty tta : String) (i : Nat), parseU16 tid = some i →
      TrainType.fromLabel ty = none →
      makeIncomingTrain tid ty tta = RunResult.panicked) := by
  constructor
  · intro e
    cases e
    · exact Or.inl rfl
    · exact Or.inr rfl
  · intro tid ty tta i h1 h2
    simp [makeIncomingTrain, h1, h2]

/-- Witness for C10: an unknown type label makes the builder abort rather
than return an `Error`. -/
theorem error_type_two_kinds_witness :
    makeIncomingTrain "802" "Commuter" "5" = RunResult.panicked :=
  error_type_two_kinds.2 "802" "Commuter" "5" 802 (by decide) (by decide)

end Caltraind
